import Mathlib

/-!
Shallow embedding of `parse_iheart_json.py` (iheart-mplayer).

The Python module has three functions:
* `station_info(station_id)` — builds the request URL with two
  `urllib.parse.urljoin` calls, performs the HTTP request, asserts the
  content type, decodes the JSON body, and checks the `ok` field.
  The network call itself is not embedded: the pure URL construction is
  `station_info_url`, and the post-response processing (content-type
  assertion, decode, `ok` check) is `station_info_response`, taking the
  response's content type and the outcome of decoding its body as inputs.
* `detect_stream(station)` — the automatic-mode selection loop over
  `preference_order`, embedded as `detect_stream` (via `detect_stream_loop`,
  which mirrors the Python `for … break / else` statement: the `else`
  branch runs exactly when no candidate matched, and returning the
  never-assigned local `choice` then raises `UnboundLocalError`).
* `get_station_url(station, stream_type)` — embedded as `get_station_url`.

Python exceptions are modelled by the `PyError` type and `Except`;
`print` output is modelled by returning the list of printed lines
alongside the result (lines printed before an exception is raised are
kept, as in Python).
-/

namespace IheartMplayer

/-- The Python exception kinds that can arise in this module. -/
inductive PyError where
  /-- A failed `assert` statement. -/
  | assertionError
  /-- `KeyError` raised by a dict lookup `d[key]` on a missing key. -/
  | keyError (key : String)
  /-- `RuntimeError(msg)` raised explicitly by the module. -/
  | runtimeError (msg : String)
  /-- `UnboundLocalError`: a local variable referenced before assignment. -/
  | unboundLocalError (var : String)
deriving DecidableEq, Repr

/-- A JSON value as stored in the station record's `streams` dict:
either `null` or a (URL) string.  Python truthiness distinguishes
`None` and the empty string (falsy) from non-empty strings (truthy). -/
inductive JVal where
  | null
  | str (s : String)
deriving DecidableEq, Repr

/-- Python truthiness of a `JVal`: `None` and `""` are falsy. -/
def JVal.truthy : JVal → Bool
  | .null => false
  | .str s => s != ""

/-- A Python dict from stream-format names to values, as an association list. -/
abbrev Dict := List (String × JVal)

/-- Python dict subscription `d[k]`: the value when present, `KeyError(k)`
when absent. -/
def dictGet (d : Dict) (k : String) : Except PyError JVal :=
  match d with
  | [] => .error (.keyError k)
  | (k', v) :: rest => if k' = k then .ok v else dictGet rest k

/-- `k in d` for a Python dict. -/
def hasKey (d : Dict) (k : String) : Bool :=
  match dictGet d k with
  | .ok _ => true
  | .error _ => false

/-- A decoded station record with the top-level fields the module reads:
`ok`, `error` and `streams`. -/
structure Station where
  ok : Bool
  error : String
  streams : Dict
deriving DecidableEq, Repr

/-! ## Stream selection (`detect_stream`, `get_station_url`) -/

/-- The fixed preference order scanned by `detect_stream`. -/
def preference_order : List String :=
  ["shoutcast_stream", "pls_stream", "secure_rtmp_stream", "stw_stream"]

/-- The warning line printed by the module for `stw_stream`. -/
def stw_warning : String :=
  "warning: using stw_stream, this stream type is not known to work anywhere"

/-- The `for candidate in preference_order: … else: …` loop of
`detect_stream`.  Each iteration tries `stream_dict[candidate]`; on success
it prints `"stream type auto: using " + candidate` and breaks, a `KeyError`
is swallowed and the loop continues.  The `else` clause runs only when the
loop finished without `break`: it prints the stw warning, and the following
`return choice` then references the never-assigned local `choice`, raising
`UnboundLocalError`. -/
def detect_stream_loop (stream_dict : Dict) : List String → List String × Except PyError JVal
  | [] => ([stw_warning], .error (.unboundLocalError "choice"))
  | candidate :: rest =>
    match dictGet stream_dict candidate with
    | .ok choice => (["stream type auto: using " ++ candidate], .ok choice)
    | .error _ => detect_stream_loop stream_dict rest

/-- `detect_stream(station)`: automatic-mode stream selection. -/
def detect_stream (station : Station) : List String × Except PyError JVal :=
  detect_stream_loop station.streams preference_order

/-- The `if/elif` chain of `get_station_url` computing the local
`station_url`, which starts as `None` (modelled `Option JVal`).  Each
explicit branch looks the mapped key up twice as in the source — once in
its truthiness test and once in the assignment, with the same outcome —
so it is embedded as one lookup whose `KeyError` propagates, assigning
only when the value is truthy; the `stw` branch prints the warning inside
its truthiness test, before assigning.  An unrecognized `stream_type`
matches no branch and leaves `station_url` as `None`. -/
def get_station_url_branch (station : Station) (stream_type : String) :
    List String × Except PyError (Option JVal) :=
  if stream_type = "auto" then
    match detect_stream station with
    | (out, .ok v) => (out, .ok (some v))
    | (out, .error e) => (out, .error e)
  else if stream_type = "rtmp" then
    match dictGet station.streams "secure_rtmp_stream" with
    | .ok v => if v.truthy then ([], .ok (some v)) else ([], .ok none)
    | .error e => ([], .error e)
  else if stream_type = "shout" then
    match dictGet station.streams "shoutcast_stream" with
    | .ok v => if v.truthy then ([], .ok (some v)) else ([], .ok none)
    | .error e => ([], .error e)
  else if stream_type = "stw" then
    match dictGet station.streams "stw_stream" with
    | .ok v => if v.truthy then ([stw_warning], .ok (some v)) else ([], .ok none)
    | .error e => ([], .error e)
  else if stream_type = "pls" then
    match dictGet station.streams "pls_stream" with
    | .ok v => if v.truthy then ([], .ok (some v)) else ([], .ok none)
    | .error e => ([], .error e)
  else ([], .ok none)

/-- `get_station_url(station, stream_type)`: runs the branch chain, then
`if (not station_url)` raises `RuntimeError("Requested stream does not
exist")` — so `None` as well as a falsy value becomes that error — and
otherwise the URL is returned. -/
def get_station_url (station : Station) (stream_type : String) :
    List String × Except PyError JVal :=
  match get_station_url_branch station stream_type with
  | (out, .error e) => (out, .error e)
  | (out, .ok none) => (out, .error (.runtimeError "Requested stream does not exist"))
  | (out, .ok (some v)) =>
    if v.truthy then (out, .ok v)
    else (out, .error (.runtimeError "Requested stream does not exist"))

/-! ## Station lookup (`station_info`) -/

/-- The base URL for the API request. -/
def iheart_base_url : String := "http://www.iheart.com/a/live/station/"

/-- The final segment of the API request URL (named `iheart_url_postfix`
in the source; renamed here). -/
def iheart_url_suffix : String := "stream/"

/-- Everything up to and including the last `'/'` of `s` (empty when `s`
has no slash): the path-merge step of relative reference resolution. -/
def dropLastSegment (s : String) : String :=
  ((s.toList.reverse.dropWhile (fun c => c ≠ '/')).reverse).asString

/-- Model of `urllib.parse.urljoin base rel`, restricted to the case the
source exercises: `rel` a relative path reference (no `':'` anywhere, so
no scheme, and not beginning with `'/'`) without dot segments, query or
fragment, resolved against a base whose path is nonempty.  Such a
reference resolves to the base minus its last path segment, followed by
`rel`.  Other references are returned unchanged (out of modelled scope). -/
def urljoin (base rel : String) : String :=
  if (∀ c ∈ rel.toList, c ≠ ':') ∧ rel.toList.head? ≠ some '/' then
    dropLastSegment base ++ rel
  else rel

/-- The URL construction of `station_info`: two `urljoin` calls, since
`urljoin` can't deal with more than two URL components.  Python's
`str(station_id)` is the decimal rendering `toString`. -/
def station_info_url (station_id : Nat) : String :=
  let iheart_url := urljoin iheart_base_url (toString station_id ++ "/")
  urljoin iheart_url iheart_url_suffix

/-- The content type the `assert` in `station_info` requires. -/
def expected_content_type : String := "application/json; charset=utf-8"

/-- The response processing of `station_info`, after the request: assert
the content type (an `AssertionError` on mismatch comes before the body is
read or decoded, so the result cannot depend on `decoded` then); decode
the body (a failure outcome propagates); then check `station['ok']` and
either raise `RuntimeError(station['error'])` or return the record. -/
def station_info_response (content_type : String) (decoded : Except PyError Station) :
    Except PyError Station :=
  if content_type = expected_content_type then
    match decoded with
    | .error e => .error e
    | .ok station =>
      if !station.ok then .error (.runtimeError station.error) else .ok station
  else .error .assertionError

deriving instance DecidableEq for Except

/-! ## Helper lemmas -/

/-- A dict lookup either succeeds or raises `KeyError` on exactly the
requested key. -/
theorem dictGet_ok_or_keyError (d : Dict) (k : String) :
    (∃ v, dictGet d k = .ok v) ∨ dictGet d k = .error (.keyError k) := by
  induction d with
  | nil => exact .inr rfl
  | cons p rest ih =>
    obtain ⟨k', v⟩ := p
    by_cases hk : k' = k
    · exact .inl ⟨v, by simp [dictGet, hk]⟩
    · simpa [dictGet, hk] using ih

/-- `hasKey` decides between the two outcomes of `dictGet`. -/
theorem hasKey_false_iff (d : Dict) (k : String) :
    hasKey d k = false ↔ dictGet d k = .error (.keyError k) := by
  unfold hasKey
  rcases dictGet_ok_or_keyError d k with ⟨v, hv⟩ | he
  · rw [hv]; simp [hv]
  · rw [he]; simp [he]

/-- The selection loop returns the value of the first candidate present
in the dict, described via `List.find?`. -/
theorem detect_stream_loop_find (d : Dict) (cs : List String) (k : String)
    (hk : cs.find? (hasKey d) = some k) :
    ∃ v, dictGet d k = .ok v ∧ (detect_stream_loop d cs).2 = .ok v := by
  induction cs with
  | nil => simp at hk
  | cons c rest ih =>
    by_cases h : hasKey d c = true
    · rw [List.find?_cons_of_pos _ h] at hk
      injection hk with hk
      subst hk
      unfold hasKey at h
      cases hv : dictGet d c with
      | ok v => exact ⟨v, rfl, by simp [detect_stream_loop, hv]⟩
      | error e => rw [hv] at h; simp at h
    · have h' : hasKey d c = false := by simpa using h
      rw [List.find?_cons_of_neg _ (by simp [h'])] at hk
      obtain ⟨v, hv, hres⟩ := ih hk
      have he := (hasKey_false_iff d c).mp h'
      exact ⟨v, hv, by simp [detect_stream_loop, he, hres]⟩

/-- `Nat.digitChar` never yields `':'` or `'/'`. -/
theorem digitChar_ne (m : Nat) : Nat.digitChar m ≠ ':' ∧ Nat.digitChar m ≠ '/' := by
  by_cases h : m < 16
  · interval_cases m <;> exact ⟨by decide, by decide⟩
  · have hstar : Nat.digitChar m = '*' := by
      unfold Nat.digitChar
      rw [if_neg (by omega : ¬ m = 0), if_neg (by omega : ¬ m = 1),
        if_neg (by omega : ¬ m = 2), if_neg (by omega : ¬ m = 3),
        if_neg (by omega : ¬ m = 4), if_neg (by omega : ¬ m = 5),
        if_neg (by omega : ¬ m = 6), if_neg (by omega : ¬ m = 7),
        if_neg (by omega : ¬ m = 8), if_neg (by omega : ¬ m = 9),
        if_neg (by omega : ¬ m = 10), if_neg (by omega : ¬ m = 11),
        if_neg (by omega : ¬ m = 12), if_neg (by omega : ¬ m = 13),
        if_neg (by omega : ¬ m = 14), if_neg (by omega : ¬ m = 15)]
    rw [hstar]
    exact ⟨by decide, by decide⟩

/-- Every character produced by `Nat.toDigitsCore` is from the
accumulator or is a `Nat.digitChar`. -/
theorem toDigitsCore_mem (b fuel : Nat) : ∀ (n : Nat) (acc : List Char) (c : Char),
    c ∈ Nat.toDigitsCore b fuel n acc → c ∈ acc ∨ ∃ m, c = Nat.digitChar m := by
  induction fuel with
  | zero => intro n acc c h; exact .inl h
  | succ fuel ih =>
    intro n acc c h
    simp only [Nat.toDigitsCore] at h
    split at h
    · rcases List.mem_cons.mp h with h | h
      · exact .inr ⟨n % b, h⟩
      · exact .inl h
    · rcases ih _ _ _ h with h | h
      · rcases List.mem_cons.mp h with h | h
        · exact .inr ⟨n % b, h⟩
        · exact .inl h
      · exact .inr h

/-- `Nat.toDigitsCore` never shrinks a nonempty accumulator to nil. -/
theorem toDigitsCore_ne_nil (b fuel : Nat) : ∀ (n : Nat) (acc : List Char),
    acc ≠ [] → Nat.toDigitsCore b fuel n acc ≠ [] := by
  induction fuel with
  | zero => intro n acc h; exact h
  | succ fuel ih =>
    intro n acc h
    simp only [Nat.toDigitsCore]
    split
    · simp
    · exact ih _ _ (by simp)

/-- The decimal rendering of a natural number is nonempty. -/
theorem toDigits_ne_nil (b n : Nat) : Nat.toDigits b n ≠ [] := by
  simp only [Nat.toDigits, Nat.toDigitsCore]
  split
  · simp
  · exact toDigitsCore_ne_nil b _ _ _ (by simp)

/-- No character of a decimal rendering is `':'` or `'/'`. -/
theorem toDigits_char_safe (n : Nat) (c : Char) (hc : c ∈ Nat.toDigits 10 n) :
    c ≠ ':' ∧ c ≠ '/' := by
  rcases toDigitsCore_mem 10 (n + 1) n [] c hc with h | ⟨m, hm⟩
  · simp at h
  · rw [hm]; exact digitChar_ne m

/-- `urljoin` on a relative path reference is path merging. -/
theorem urljoin_relative (base rel : String)
    (h1 : ∀ c ∈ rel.toList, c ≠ ':') (h2 : rel.toList.head? ≠ some '/') :
    urljoin base rel = dropLastSegment base ++ rel := by
  unfold urljoin
  rw [if_pos ⟨h1, h2⟩]

theorem asString_eq (l : List Char) : l.asString = String.mk l := rfl

/-- Merging against a base that ends in a slash keeps the whole base. -/
theorem dropLastSegment_append_slash (s : String) :
    dropLastSegment (s ++ "/") = s ++ "/" := by
  obtain ⟨l⟩ := s
  show (((l ++ ['/']).reverse.dropWhile (fun c => c ≠ '/')).reverse).asString =
    String.mk (l ++ ['/'])
  rw [List.reverse_append]
  simp [List.dropWhile, asString_eq]

theorem toString_nat_eq (n : Nat) : toString n = (Nat.toDigits 10 n).asString := rfl

/-! ## Concrete station records used as witnesses and counterexamples -/

/-- A record offering both `shoutcast_stream` and `secure_rtmp_stream`. -/
def both_streams_station : Station :=
  { ok := true, error := "",
    streams := [("shoutcast_stream", .str "http://shout.example/listen"),
                ("secure_rtmp_stream", .str "rtmp://rtmp.example/live")] }

/-- A record whose `streams` mapping contains only `stw_stream`. -/
def stw_only_station : Station :=
  { ok := true, error := "", streams := [("stw_stream", .str "http://stw.example/a")] }

/-- A record whose `streams` mapping is empty. -/
def empty_streams_station : Station :=
  { ok := true, error := "", streams := [] }

/-- A record whose `pls_stream` entry is present but maps to `""`. -/
def falsy_pls_station : Station :=
  { ok := true, error := "", streams := [("pls_stream", .str "")] }

/-! ## Claims -/

/-- Claim C1: for every station record whose `streams` mapping contains at
least one of the four recognized format keys, automatic-mode stream
selection (`detect_stream`) returns the URL associated with the first key
of `preference_order = [shoutcast_stream, pls_stream, secure_rtmp_stream,
stw_stream]` that is present in the mapping; moreover, when that value is
truthy, `get_station_url station "auto"` returns the same URL. -/
theorem detect_stream_returns_first_present (st : Station) (k : String)
    (hk : preference_order.find? (hasKey st.streams) = some k) :
    ∃ v, dictGet st.streams k = .ok v ∧ (detect_stream st).2 = .ok v ∧
      (v.truthy = true → (get_station_url st "auto").2 = .ok v) := by
  obtain ⟨v, hv, hres⟩ := detect_stream_loop_find st.streams preference_order k hk
  refine ⟨v, hv, hres, fun htr => ?_⟩
  unfold get_station_url get_station_url_branch
  rw [if_pos rfl]
  rcases hds : detect_stream st with ⟨out, r⟩
  rw [detect_stream] at hds
  rw [hds] at hres
  simp only at hres
  subst hres
  simp [htr]

/-- Witness for C1: a record with both `shoutcast_stream` and
`secure_rtmp_stream`; auto mode returns the `shoutcast_stream` value. -/
theorem detect_stream_returns_first_present_witness :
    preference_order.find? (hasKey both_streams_station.streams) = some "shoutcast_stream" ∧
    ∃ v, dictGet both_streams_station.streams "shoutcast_stream" = .ok v ∧
      (detect_stream both_streams_station).2 = .ok v ∧
      (v.truthy = true → (get_station_url both_streams_station "auto").2 = .ok v) :=
  ⟨by decide,
   detect_stream_returns_first_present both_streams_station "shoutcast_stream" (by decide)⟩

/-- Claim C2 (code_bug evidence): on a record whose `streams` mapping
contains only `stw_stream`, `detect_stream` returns the `stw_stream` value
but does NOT emit the stw warning — it prints only the selection line.
The Python `for … else` clause carrying the warning runs exactly when the
loop finished without `break`, not (as the source's own comment on that
branch claims) when `stw_stream` was chosen. -/
theorem detect_stream_stw_only_no_warning :
    detect_stream stw_only_station =
      (["stream type auto: using stw_stream"], .ok (.str "http://stw.example/a")) ∧
    stw_warning ∉ (detect_stream stw_only_station).1 :=
  ⟨rfl, by decide⟩

/-- Claim C3 (code_bug evidence): on a record whose `streams` mapping is
empty, automatic-mode selection prints the stw warning and then raises
`UnboundLocalError` for the never-assigned local `choice` — not the
`RuntimeError "Requested stream does not exist"` failure the spec
requires. -/
theorem detect_stream_empty_streams_unbound_local :
    detect_stream empty_streams_station =
      ([stw_warning], .error (.unboundLocalError "choice")) ∧
    get_station_url empty_streams_station "auto" =
      ([stw_warning], .error (.unboundLocalError "choice")) :=
  ⟨rfl, rfl⟩

/-- Counterexample to C4: on a record whose `streams` lacks
`shoutcast_stream`, `get_station_url station "shout"` raises
`KeyError "shoutcast_stream"`, not the `RuntimeError "Requested stream
does not exist"` failure the claim asserts. -/
theorem get_station_url_shout_missing_keyerror :
    get_station_url empty_streams_station "shout" =
      ([], .error (.keyError "shoutcast_stream")) ∧
    (get_station_url empty_streams_station "shout").2 ≠
      .error (.runtimeError "Requested stream does not exist") :=
  ⟨rfl, by decide⟩

/-- Claim C4 (amended): for every station record whose `streams` mapping
lacks `shoutcast_stream`, `get_station_url station "shout"` raises
`KeyError "shoutcast_stream"` — the uncaught-by-design dict lookup error
the docstring tells callers to be prepared for — rather than the
`RuntimeError "Requested stream does not exist"` failure. -/
theorem get_station_url_shout_missing (st : Station)
    (h : hasKey st.streams "shoutcast_stream" = false) :
    get_station_url st "shout" = ([], .error (.keyError "shoutcast_stream")) := by
  have hd := (hasKey_false_iff _ _).mp h
  unfold get_station_url get_station_url_branch
  rw [if_neg (by decide : ¬ ("shout" : String) = "auto"),
    if_neg (by decide : ¬ ("shout" : String) = "rtmp"), if_pos rfl, hd]

/-- Witness for C4 (amended), at the empty-streams record. -/
theorem get_station_url_shout_missing_witness :
    hasKey empty_streams_station.streams "shoutcast_stream" = false ∧
    get_station_url empty_streams_station "shout" =
      ([], .error (.keyError "shoutcast_stream")) :=
  ⟨rfl, get_station_url_shout_missing empty_streams_station rfl⟩

/-- Counterexample to C5: on a record whose `streams` lacks `stw_stream`,
`get_station_url station "stw"` emits no warning at all (the lookup
raises `KeyError` before the `print` is reached), so the warning is not
emitted "exactly once per call regardless of success or failure". -/
theorem get_station_url_stw_missing_no_warning :
    (get_station_url empty_streams_station "stw").1.count stw_warning = 0 ∧
    (get_station_url empty_streams_station "stw").2 = .error (.keyError "stw_stream") :=
  ⟨rfl, rfl⟩

/-- Claim C5 (amended): for every station record, `get_station_url
station "stw"` emits the stw warning exactly once when the selection
succeeds, and never when it fails (the warning is printed inside the
truthiness test, after the key lookup). -/
theorem get_station_url_stw_warning_iff_success (st : Station) :
    (get_station_url st "stw").1.count stw_warning =
      if ((get_station_url st "stw").2).isOk then 1 else 0 := by
  unfold get_station_url get_station_url_branch
  rw [if_neg (by decide : ¬ ("stw" : String) = "auto"),
    if_neg (by decide : ¬ ("stw" : String) = "rtmp"),
    if_neg (by decide : ¬ ("stw" : String) = "shout"), if_pos rfl]
  cases hd : dictGet st.streams "stw_stream" with
  | ok v =>
    cases htr : v.truthy with
    | true => simp [htr, Except.isOk, Except.toBool, List.count_cons, stw_warning]
    | false => simp [htr, Except.isOk, Except.toBool]
  | error e => simp [Except.isOk, Except.toBool]

/-- Claim C6: for every station record and explicit format tag, if the
mapped key is present in `streams` but maps to a falsy value (`None` or
`""`), `get_station_url` fails with
`RuntimeError "Requested stream does not exist"`. -/
theorem get_station_url_explicit_falsy_fails (st : Station) (ty key : String) (v : JVal)
    (hmap : (ty, key) ∈ [("rtmp", "secure_rtmp_stream"), ("shout", "shoutcast_stream"),
      ("stw", "stw_stream"), ("pls", "pls_stream")])
    (hv : dictGet st.streams key = .ok v) (hfalsy : v.truthy = false) :
    get_station_url st ty = ([], .error (.runtimeError "Requested stream does not exist")) := by
  simp only [List.mem_cons, List.not_mem_nil, or_false, Prod.mk.injEq] at hmap
  rcases hmap with ⟨h1, h2⟩ | ⟨h1, h2⟩ | ⟨h1, h2⟩ | ⟨h1, h2⟩ <;> subst h1 <;> subst h2 <;>
    unfold get_station_url get_station_url_branch <;>
    simp [hv, hfalsy]

/-- Witness for C6: `pls_stream` present but mapped to `""`. -/
theorem get_station_url_explicit_falsy_fails_witness :
    ((("pls", "pls_stream") ∈ [("rtmp", "secure_rtmp_stream"), ("shout", "shoutcast_stream"),
        ("stw", "stw_stream"), ("pls", "pls_stream")]) ∧
      dictGet falsy_pls_station.streams "pls_stream" = .ok (.str "") ∧
      (JVal.str "").truthy = false) ∧
    get_station_url falsy_pls_station "pls" =
      ([], .error (.runtimeError "Requested stream does not exist")) :=
  ⟨⟨by decide, rfl, rfl⟩,
   get_station_url_explicit_falsy_fails falsy_pls_station "pls" "pls_stream" (.str "")
     (by decide) rfl rfl⟩

/-- Claim C7: for every decoded station record, if `ok` is false the
lookup fails with `RuntimeError` carrying the record's `error` field
verbatim, and if `ok` is true it returns the full record unchanged. -/
theorem station_info_ok_check (st : Station) :
    (st.ok = false →
      station_info_response expected_content_type (.ok st) = .error (.runtimeError st.error)) ∧
    (st.ok = true → station_info_response expected_content_type (.ok st) = .ok st) := by
  constructor <;> intro h <;> simp [station_info_response, h]

/-- Witness for C7: `ok: false, error: "bad id"` fails carrying exactly
`"bad id"`; an `ok: true` record is returned unchanged. -/
theorem station_info_ok_check_witness :
    station_info_response expected_content_type (.ok ⟨false, "bad id", []⟩) =
      .error (.runtimeError "bad id") ∧
    station_info_response expected_content_type (.ok ⟨true, "", []⟩) = .ok ⟨true, "", []⟩ :=
  ⟨(station_info_ok_check ⟨false, "bad id", []⟩).1 rfl,
   (station_info_ok_check ⟨true, "", []⟩).2 rfl⟩

/-- Claim C9: for every HTTP response whose content type is not
`application/json; charset=utf-8`, the lookup fails with
`AssertionError` (the "unexpected response format" kind) regardless of
the decode outcome — i.e. without decoding or returning a record. -/
theorem station_info_bad_content_type (content_type : String)
    (decoded : Except PyError Station) (h : content_type ≠ expected_content_type) :
    station_info_response content_type decoded = .error .assertionError := by
  unfold station_info_response
  rw [if_neg h]

/-- Witness for C9: a `text/html` response fails with `AssertionError`. -/
theorem station_info_bad_content_type_witness :
    "text/html" ≠ expected_content_type ∧
    station_info_response "text/html" (.ok ⟨true, "", []⟩) = .error .assertionError :=
  ⟨by decide, station_info_bad_content_type "text/html" (.ok ⟨true, "", []⟩) (by decide)⟩

/-- Claim C10: for every station record and stream-type argument outside
`{auto, rtmp, shout, stw, pls}`, `get_station_url` matches no branch,
leaves `station_url` as `None`, and so fails with
`RuntimeError "Requested stream does not exist"`. -/
theorem get_station_url_unknown_type (st : Station) (stream_type : String)
    (h : stream_type ∉ (["auto", "rtmp", "shout", "stw", "pls"] : List String)) :
    get_station_url st stream_type =
      ([], .error (.runtimeError "Requested stream does not exist")) := by
  simp only [List.mem_cons, List.not_mem_nil, or_false, not_or] at h
  obtain ⟨h1, h2, h3, h4, h5⟩ := h
  unfold get_station_url get_station_url_branch
  rw [if_neg h1, if_neg h2, if_neg h3, if_neg h4, if_neg h5]

/-- Claim C8: for every station identifier, the request URL built by the
two `urljoin` calls equals the fixed template
`http://www.iheart.com/a/live/station/{id}/stream/`, with the identifier
rendered as a decimal string. -/
theorem station_info_url_eq (station_id : Nat) :
    station_info_url station_id =
      "http://www.iheart.com/a/live/station/" ++ toString station_id ++ "/stream/" := by
  have hchars0 : ∀ c ∈ Nat.toDigits 10 station_id, c ≠ ':' ∧ c ≠ '/' :=
    fun c hc => toDigits_char_safe station_id c hc
  have hne : Nat.toDigits 10 station_id ≠ [] := toDigits_ne_nil 10 station_id
  rcases hl : Nat.toDigits 10 station_id with _ | ⟨c0, l⟩
  · exact absurd hl hne
  have hs : toString station_id = String.mk (c0 :: l) := by
    rw [toString_nat_eq, hl, asString_eq]
  have hchars : ∀ c ∈ c0 :: l, c ≠ ':' ∧ c ≠ '/' := fun c hc => hchars0 c (hl ▸ hc)
  unfold station_info_url
  rw [hs]
  rw [show (String.mk (c0 :: l) ++ "/") = String.mk ((c0 :: l) ++ ['/']) from rfl]
  rw [urljoin_relative iheart_base_url (String.mk ((c0 :: l) ++ ['/']))
    (by intro c hc
        rcases List.mem_append.mp hc with h | h
        · exact (hchars c h).1
        · simp at h; rw [h]; decide)
    (by show ((c0 :: l) ++ ['/'] : List Char).head? ≠ some '/'
        simp only [List.cons_append, List.head?_cons]
        intro h
        injection h with h
        exact (hchars c0 (by simp)).2 h)]
  rw [show dropLastSegment iheart_base_url = iheart_base_url from by decide]
  rw [show (iheart_base_url ++ String.mk ((c0 :: l) ++ ['/'])) =
      ((iheart_base_url ++ String.mk (c0 :: l)) ++ "/") from
    String.ext (by simp [iheart_base_url, String.data_append])]
  rw [urljoin_relative _ iheart_url_suffix (by decide) (by decide),
    dropLastSegment_append_slash]
  apply String.ext
  simp [iheart_base_url, iheart_url_suffix, String.data_append]

/-- Witness for C10: the unrecognized stream type `"bogus"`. -/
theorem get_station_url_unknown_type_witness :
    ("bogus" : String) ∉ (["auto", "rtmp", "shout", "stw", "pls"] : List String) ∧
    get_station_url both_streams_station "bogus" =
      ([], .error (.runtimeError "Requested stream does not exist")) :=
  ⟨by decide, get_station_url_unknown_type both_streams_station "bogus" (by decide)⟩

end IheartMplayer
